import Mathlib

/-!
Formal model of the depthai_publisher detection-to-publication pipeline.

The definitions below are a shallow embedding of the two source files
src/depthai_publisher/dai_detector.py and
src/depthai_publisher/aruco_subscriber_pose.py.  Python floats are modelled
as rationals, numpy integer casts as floors, the per-id deque(maxlen=10)
buffers and the published/seen sets as lists, and Python exceptions as
Except values.  External collaborators (the camera pipeline, ROS transport,
image drawing, text-to-speech playback) are out of scope and only their
observable effects (published message payloads, queued speech batches,
logged warnings) are recorded in the result structures.
-/

/-- Detection as handed to publish_object_data: the label string obtained by
the table lookup labels[detection.label] (the label table itself lives in an
external JSON config file, outside the repository), and the normalized
bounding box fields xmin, ymin, xmax, ymax. -/
structure Detection where
  label : String
  xmin : ℚ
  ymin : ℚ
  xmax : ℚ
  ymax : ℚ

/-- Mutable state of DepthaiCamera that publish_object_data reads and
writes: self.published_objects (a set, modelled as a list with membership)
and self.coordinate_buffers (a defaultdict of deque(maxlen=10), modelled as
a total function returning the empty buffer by default). -/
structure CamState where
  published_objects : List ℕ
  coordinate_buffers : ℕ → List (List ℤ)

/-- Observable outcome of one call to publish_object_data: the new state,
the Float32MultiArray payload published on /object_pose (if any), whether
the unknown-identifier warning of line 110 was logged, and the label spoken
through espeak (line 143, if any). -/
structure PubResult where
  state : CamState
  published : Option (List ℚ)
  warned : Bool
  spoke : Option String

/-- np.clip(v, 0, 1) for one scalar. -/
def clip01 (v : ℚ) : ℚ := max 0 (min 1 v)

/-- One entry of (np.clip(bbox, 0, 1) * normVals).astype(int): clip to
[0, 1], scale by the axis size n, truncate to an integer.  The clipped
product is nonnegative, so the toward-zero truncation of astype(int) is the
floor. -/
def scaleCoord (n : ℕ) (v : ℚ) : ℤ := Int.floor (clip01 v * (n : ℚ))

/-- DepthaiCamera.frameNorm (lines 277-280): normVals is filled with the
frame height frame.shape[0] and every even index is overwritten with the
frame width frame.shape[1]; the clipped bbox entries are scaled by normVals
and cast to int. -/
def frameNorm (W H : ℕ) (bbox : List ℚ) : List ℤ :=
  bbox.enum.map (fun p => scaleCoord (if p.1 % 2 = 0 then W else H) p.2)

/-- Appending to a deque with maxlen 10 (line 99): when the deque already
holds 10 entries the leftmost entry is evicted. -/
def pushDeque10 (q : List (List ℤ)) (x : List ℤ) : List (List ℤ) :=
  if q.length = 10 then q.tail ++ [x] else q ++ [x]

/-- np.mean(buffer, axis=0) for a buffer of flattened corner arrays of
length 8 (line 133), followed by the reshape((4, 2)) and re-flattening of
line 137, whose net effect is the elementwise column mean in order. -/
def meanCols (buf : List (List ℤ)) : List ℚ :=
  (List.range 8).map
    (fun j => ((buf.map (fun c => ((c.getD j 0 : ℤ) : ℚ))).sum) / (buf.length : ℚ))

/-- Label-to-id table of lines 104-111: backpack maps to 101, person maps
to 102, every other label is rejected. -/
def assignObjectId (label : String) : Option ℕ :=
  if label = "backpack" then some 101
  else if label = "person" then some 102
  else none

/-- Flattened pixel corner array of lines 113-121 and 129: frameNorm of the
bbox, rearranged into (b0,b1),(b2,b1),(b2,b3),(b0,b3) and flattened. -/
def currentCorners (W H : ℕ) (d : Detection) : List ℤ :=
  let bbox := frameNorm W H [d.xmin, d.ymin, d.xmax, d.ymax]
  let b0 := bbox.getD 0 0
  let b1 := bbox.getD 1 0
  let b2 := bbox.getD 2 0
  let b3 := bbox.getD 3 0
  [b0, b1, b2, b1, b2, b3, b0, b3]

/-- Body of publish_object_data (lines 113-148) once a known object_id has
been assigned: convert the bbox to pixels, form the corner array and the
two size ratios of the current detection, append to the buffer for this id
(line 129), and if the buffer now holds 10 entries and the id has not been
published before (line 131), publish the 11-float payload of line 137,
speak the label, mark the id as published and clear its buffer; otherwise
only the buffer append persists. -/
def publishCore (W H : ℕ) (object_id : ℕ) (s : CamState) (d : Detection) : PubResult :=
  let bbox := frameNorm W H [d.xmin, d.ymin, d.xmax, d.ymax]
  let corners : List ℤ := currentCorners W H d
  let height := bbox.getD 3 0 - bbox.getD 1 0
  let width := bbox.getD 2 0 - bbox.getD 0 0
  let marker_length_x : ℚ := (width : ℚ) / (W : ℚ)
  let marker_length_y : ℚ := (height : ℚ) / (H : ℚ)
  let buf := pushDeque10 (s.coordinate_buffers object_id) corners
  if buf.length = 10 ∧ object_id ∉ s.published_objects then
    { state :=
        { published_objects := object_id :: s.published_objects,
          coordinate_buffers := Function.update s.coordinate_buffers object_id [] },
      published := some (((object_id : ℕ) : ℚ) :: (meanCols buf ++ [marker_length_x, marker_length_y])),
      warned := false,
      spoke := some d.label }
  else
    { state :=
        { published_objects := s.published_objects,
          coordinate_buffers := Function.update s.coordinate_buffers object_id buf },
      published := none,
      warned := false,
      spoke := none }

/-- DepthaiCamera.publish_object_data (lines 103-148): the if/elif/else
label dispatch of lines 105-111 followed by the aggregation and publication
body; an unknown label logs a warning and returns with nothing changed. -/
def publish_object_data (W H : ℕ) (s : CamState) (d : Detection) : PubResult :=
  if d.label = "backpack" then publishCore W H 101 s d
  else if d.label = "person" then publishCore W H 102 s d
  else { state := s, published := none, warned := true, spoke := none }

/-- Messages emitted by one call. -/
def stepMsgs (r : PubResult) : List (List ℚ) :=
  match r.published with
  | some m => [m]
  | none => []

/-- Folding publish_object_data over a sequence of detections, as the frame
loop of run (lines 217-237) does, collecting every payload published on
/object_pose. -/
def runDetections (W H : ℕ) : CamState → List Detection → CamState × List (List ℚ)
  | s, [] => (s, [])
  | s, d :: rest =>
    let r := publish_object_data W H s d
    let next := runDetections W H r.state rest
    (next.1, stepMsgs r ++ next.2)

/-- State at node start: no published objects, all buffers empty. -/
def initState : CamState :=
  { published_objects := [], coordinate_buffers := fun _ => [] }

/-- Number of published payloads whose leading float is the given object
id. -/
def countMsgsFor (oid : ℕ) (msgs : List (List ℚ)) : ℕ :=
  msgs.countP (fun m => decide (m.head? = some ((oid : ℕ) : ℚ)))

/-- Detection used by the scenario of claim C3. -/
def backpackDet : Detection :=
  { label := "backpack", xmin := 2/5, ymin := 2/5, xmax := 3/5, ymax := 3/5 }

/-- Corner values the scenario claim states, in flattened order. -/
def c3Claimed : List ℚ := [166, 166, 250, 166, 250, 250, 166, 250]

/-- Payload actually published in the scenario of claim C3. -/
def c3Msg : List ℚ :=
  [101, 166, 166, 249, 166, 249, 249, 166, 249, 83/416, 83/416]

/-- Concrete flattened corner array used by witnesses. -/
def wCorners : List ℤ := [0, 0, 10, 0, 10, 10, 0, 10]

/-- Concrete state whose buffer for id 101 already holds nine observations. -/
def wState : CamState :=
  { published_objects := [],
    coordinate_buffers := Function.update (fun _ => []) 101 (List.replicate 9 wCorners) }

/-- Concrete full-frame backpack detection used by witnesses. -/
def wDet : Detection := { label := "backpack", xmin := 0, ymin := 0, xmax := 1, ymax := 1 }

/-- Buffer contents at the moment of publication in the witness scenario. -/
def wBuf : List (List ℤ) := List.replicate 10 wCorners

/-- Payload published in the witness scenario. -/
def wMsg : List ℚ := [101, 0, 0, 10, 0, 10, 10, 0, 10, 1, 1]

/-- One detected fiducial marker as handed to find_aruco by
cv2.aruco.detectMarkers: its numeric identifier and its four corner points
in order top-left, top-right, bottom-right, bottom-left. -/
structure Marker where
  markerId : ℕ
  markerCorners : List (ℚ × ℚ)

/-- Mutable state of ArucoDetector used by find_aruco:
self.detected_marker_ids (a set, modelled as a list with membership). -/
structure ArucoState where
  detected_marker_ids : List ℕ

/-- Pose message of lines 128-137: translation, quaternion and the child
frame identifier aruco_marker. -/
structure MarkerPose where
  translation : ℚ × ℚ × ℚ
  rotation : ℚ × ℚ × ℚ × ℚ
  child_frame_id : String

/-- Observable outcome of one call to find_aruco: the new registry state,
the batches put on the speech queue (lines 101-102), the pose transforms
sent through the transform broadcaster (line 139), and either normal
return or the Python exception that escaped. -/
structure FindOut where
  state : ArucoState
  queued : List (List ℕ)
  posesSent : List MarkerPose
  result : Except String Unit

/-- Outcome of one img_callback invocation (lines 55-64): find_aruco runs
first, and publish_to_ros on the annotated frame is reached only when
find_aruco returns normally; an exception escapes the callback uncaught. -/
structure CallbackOut where
  state : ArucoState
  queued : List (List ℕ)
  posesSent : List MarkerPose
  republished : Bool
  uncaught : Option String

/-- First-sighting check of lines 95-97: a marker identifier not yet in
detected_marker_ids is new and is recorded; a known one leaves the state
unchanged. -/
def firstSighting (s : List ℕ) (markerId : ℕ) : Bool × List ℕ :=
  if markerId ∈ s then (false, s) else (true, markerId :: s)

/-- Loop of lines 75-97 restricted to its registry effect: fold
firstSighting over the marker identifiers of one frame, collecting the new
identifiers in iteration order. -/
def registerLoop : List ℕ → List ℕ → List ℕ × List ℕ
  | s, [] => (s, [])
  | s, i :: rest =>
    let fs := firstSighting s i
    let next := registerLoop fs.2 rest
    (next.1, (if fs.1 then [i] else []) ++ next.2)

/-- numpy reshape of a flat array into shape (4, 2): defined only when the
array holds 8 entries, a ValueError otherwise. -/
def npReshape42 (a : List ℚ) : Except String (List (List ℚ)) :=
  if a.length = 8 then
    Except.ok [a.take 2, (a.drop 2).take 2, (a.drop 4).take 2, a.drop 6]
  else Except.error "ValueError: cannot reshape array into shape 4x2"

/-- ArucoDetector.find_aruco (lines 67-141).  With no marker in the frame
the body of the if of line 71 is skipped and line 139 executes
unconditionally, where self.tfbr was never assigned, so an AttributeError
escapes.  With markers present, the loop of lines 75-97 reassigns the
local variable corners to the last markers (4, 2) corner array and records
first sightings, the new identifiers are queued for speech (lines
101-102), and then line 115 evaluates corners[0].reshape((4, 2)) on a
single corner point of size 2, raising a ValueError before the solver of
line 118 (cv2.solvePnp, itself a nonexistent attribute) is ever reached;
no pose is ever computed or sent. -/
def find_aruco (s : ArucoState) (markers : List Marker) : FindOut :=
  match markers with
  | [] =>
    { state := s, queued := [], posesSent := [],
      result := Except.error "AttributeError: ArucoDetector object has no attribute tfbr" }
  | m :: rest =>
    let reg := registerLoop s.detected_marker_ids ((m :: rest).map Marker.markerId)
    let queued := if reg.2 = [] then ([] : List (List ℕ)) else [reg.2]
    let cornersVar := ((m :: rest).getLast (List.cons_ne_nil m rest)).markerCorners
    let p0 := cornersVar.headI
    match npReshape42 [p0.1, p0.2] with
    | Except.error e =>
      { state := { detected_marker_ids := reg.1 }, queued := queued, posesSent := [],
        result := Except.error e }
    | Except.ok _ =>
      { state := { detected_marker_ids := reg.1 }, queued := queued, posesSent := [],
        result := Except.error "AttributeError: module cv2 has no attribute solvePnp" }

/-- ArucoDetector.img_callback (lines 55-64): publish_to_ros runs only if
find_aruco returned without raising. -/
def img_callback (s : ArucoState) (markers : List Marker) : CallbackOut :=
  let fa := find_aruco s markers
  match fa.result with
  | Except.ok _ =>
    { state := fa.state, queued := fa.queued, posesSent := fa.posesSent,
      republished := true, uncaught := none }
  | Except.error e =>
    { state := fa.state, queued := fa.queued, posesSent := fa.posesSent,
      republished := false, uncaught := some e }

/-- True when the call ended in a Python exception. -/
def exceptIsError (r : Except String Unit) : Bool :=
  match r with
  | Except.error _ => true
  | Except.ok _ => false

/-- Concrete marker sighting: id 7, an axis-aligned square. -/
def mA : Marker :=
  { markerId := 7, markerCorners := [(100, 100), (200, 100), (200, 200), (100, 200)] }

/-- The same marker in a later frame with different corner positions. -/
def mB : Marker :=
  { markerId := 7, markerCorners := [(110, 105), (210, 105), (210, 205), (110, 205)] }

-- Theorems start here.

/-- frameNorm on a four-entry bbox list scales even indices by the width
and odd indices by the height. -/
lemma frameNorm_cons4 (W H : ℕ) (a b c d : ℚ) :
    frameNorm W H [a, b, c, d] =
      [scaleCoord W a, scaleCoord H b, scaleCoord W c, scaleCoord H d] := by
  simp [frameNorm, List.enum, List.enumFrom]

/-- clip01 stays within the unit interval. -/
lemma clip01_mem (v : ℚ) : 0 ≤ clip01 v ∧ clip01 v ≤ 1 := by
  constructor
  · exact le_max_left 0 (min 1 v)
  · exact max_le (by norm_num) (min_le_left 1 v)

/-- scaleCoord lands in [0, n]. -/
lemma scaleCoord_bounds (n : ℕ) (v : ℚ) :
    0 ≤ scaleCoord n v ∧ scaleCoord n v ≤ (n : ℤ) := by
  obtain ⟨h0, h1⟩ := clip01_mem v
  constructor
  · exact Int.floor_nonneg.mpr (mul_nonneg h0 (Nat.cast_nonneg n))
  · calc Int.floor (clip01 v * (n : ℚ)) ≤ Int.floor ((n : ℚ)) :=
          Int.floor_le_floor (mul_le_of_le_one_left (Nat.cast_nonneg n) h1)
    _ = (n : ℤ) := Int.floor_natCast n

/-- Claim C5: for every input bbox of four floats, possibly outside [0,1],
and every frame of pixel dimensions (W,H), frameNorm clips each coordinate
to [0,1] before scaling x-coordinates (even indices) by W and y-coordinates
(odd indices) by H, so every output pixel coordinate is an integer with
x in [0,W] and y in [0,H]. -/
theorem frameNorm_within_bounds (W H : ℕ) (x1 y1 x2 y2 : ℚ) :
    (0 ≤ (frameNorm W H [x1, y1, x2, y2]).getD 0 0 ∧
      (frameNorm W H [x1, y1, x2, y2]).getD 0 0 ≤ (W : ℤ)) ∧
    (0 ≤ (frameNorm W H [x1, y1, x2, y2]).getD 1 0 ∧
      (frameNorm W H [x1, y1, x2, y2]).getD 1 0 ≤ (H : ℤ)) ∧
    (0 ≤ (frameNorm W H [x1, y1, x2, y2]).getD 2 0 ∧
      (frameNorm W H [x1, y1, x2, y2]).getD 2 0 ≤ (W : ℤ)) ∧
    (0 ≤ (frameNorm W H [x1, y1, x2, y2]).getD 3 0 ∧
      (frameNorm W H [x1, y1, x2, y2]).getD 3 0 ≤ (H : ℤ)) := by
  rw [frameNorm_cons4]
  simp only [List.getD_cons_zero, List.getD_cons_succ]
  exact ⟨scaleCoord_bounds W x1, scaleCoord_bounds H y1,
    scaleCoord_bounds W x2, scaleCoord_bounds H y2⟩

/-- Claim C4: a Detection whose label is not in the fixed label-to-ID table
is dropped with a logged warning and nothing else happens: the state is
unchanged (no CoordinateBuffer entry is created or appended), nothing is
published, nothing is spoken, and the call returns normally. -/
theorem unknown_label_dropped (W H : ℕ) (s : CamState) (d : Detection)
    (h1 : d.label ≠ "backpack") (h2 : d.label ≠ "person") :
    publish_object_data W H s d =
      { state := s, published := none, warned := true, spoke := none } := by
  unfold publish_object_data
  rw [if_neg h1, if_neg h2]

/-- Witness for claim C4 at a concrete unknown label. -/
theorem unknown_label_dropped_witness :
    publish_object_data 416 416 initState
        { label := "chair", xmin := 0, ymin := 0, xmax := 1, ymax := 1 } =
      { state := initState, published := none, warned := true, spoke := none } :=
  unknown_label_dropped 416 416 initState
    { label := "chair", xmin := 0, ymin := 0, xmax := 1, ymax := 1 }
    (by decide) (by decide)

/-- Claim C6 fails on the code: far from emitting one recomputed MarkerPose
per visible marker per frame, find_aruco emits no pose at all and raises an
uncaught exception, in the first frame with marker corners
(100,100),(200,100),(200,200),(100,200) as well as in a second frame where
the same marker has moved; this theorem evaluates the model at those two
failing frames. -/
theorem find_aruco_never_emits_pose :
    (find_aruco { detected_marker_ids := [] } [mA]).posesSent.length = 0 ∧
    exceptIsError (find_aruco { detected_marker_ids := [] } [mA]).result = true ∧
    (find_aruco (find_aruco { detected_marker_ids := [] } [mA]).state [mB]).posesSent.length = 0 ∧
    exceptIsError
      (find_aruco (find_aruco { detected_marker_ids := [] } [mA]).state [mB]).result = true := by
  decide

/-- Claim C7 fails on the code: a failure in the pose path is not contained
inside find_aruco; the ValueError raised at the reshape of line 115 (before
the solver is even reached) escapes img_callback, so publish_to_ros is
skipped and the frame processing is aborted; this theorem evaluates the
model at a failing frame holding one marker. -/
theorem pose_failure_aborts_callback :
    (img_callback { detected_marker_ids := [] } [mA]).republished = false ∧
    (img_callback { detected_marker_ids := [] } [mA]).uncaught =
      some "ValueError: cannot reshape array into shape 4x2" ∧
    (img_callback { detected_marker_ids := [] } [mA]).posesSent.length = 0 := by
  decide

/-- Claim C8: the first-sighting check returns true and records the
identifier on the first call for that identifier, returns false (leaving
the state unchanged) on every later call, in particular right after a
recording call, and the recorded set is append-only. -/
theorem firstSighting_once (s : List ℕ) (markerId : ℕ) :
    (markerId ∉ s → firstSighting s markerId = (true, markerId :: s)) ∧
    (markerId ∈ s → firstSighting s markerId = (false, s)) ∧
    (firstSighting (firstSighting s markerId).2 markerId).1 = false ∧
    s ⊆ (firstSighting s markerId).2 := by
  refine ⟨fun h => ?_, fun h => ?_, ?_, ?_⟩
  · simp [firstSighting, h]
  · simp [firstSighting, h]
  · by_cases h : markerId ∈ s <;> simp [firstSighting, h]
  · by_cases h : markerId ∈ s <;> simp [firstSighting, h]

/-- Witness for claim C8 at concrete identifiers. -/
theorem firstSighting_once_witness :
    firstSighting [] 7 = (true, [7]) ∧
    firstSighting [7] 7 = (false, [7]) ∧
    (firstSighting (firstSighting [] 7).2 7).1 = false :=
  ⟨(firstSighting_once [] 7).1 (by decide),
   (firstSighting_once [7] 7).2.1 (by decide),
   (firstSighting_once [] 7).2.2.1⟩

-- Helper lemmas shared by the aggregation and dedup theorems.

/-- publishCore never removes an id from the published set. -/
lemma publishCore_mem_mono (W H oid : ℕ) (s : CamState) (d : Detection) (k : ℕ)
    (h : k ∈ s.published_objects) :
    k ∈ (publishCore W H oid s d).state.published_objects := by
  simp only [publishCore]
  split
  · exact List.mem_cons_of_mem _ h
  · exact h

/-- When publishCore is called for an id already in the published set, the
condition of line 131 fails, so nothing is published. -/
lemma publishCore_no_pub_of_mem (W H oid : ℕ) (s : CamState) (d : Detection)
    (h : oid ∈ s.published_objects) :
    (publishCore W H oid s d).published = none := by
  simp only [publishCore]
  rw [if_neg (fun hc => hc.2 h)]

/-- When publishCore publishes a payload, its head is the id, the id was
not yet published, and the id enters the published set. -/
lemma publishCore_published_some (W H oid : ℕ) (s : CamState) (d : Detection)
    (m : List ℚ) (h : (publishCore W H oid s d).published = some m) :
    m.head? = some ((oid : ℕ) : ℚ) ∧ oid ∉ s.published_objects ∧
    (publishCore W H oid s d).state.published_objects = oid :: s.published_objects := by
  revert h
  simp only [publishCore]
  split
  next hcond =>
    intro h
    injection h with h
    subst h
    exact ⟨rfl, hcond.2, rfl⟩
  next =>
    intro h
    exact Option.noConfusion h

/-- publish_object_data never removes an id from the published set. -/
lemma publish_mem_mono (W H : ℕ) (s : CamState) (d : Detection) (k : ℕ)
    (h : k ∈ s.published_objects) :
    k ∈ (publish_object_data W H s d).state.published_objects := by
  unfold publish_object_data
  split_ifs
  · exact publishCore_mem_mono W H 101 s d k h
  · exact publishCore_mem_mono W H 102 s d k h
  · exact h

/-- Every published payload carries the assigned id as its head, only when
the id was unpublished, and the id becomes published. -/
lemma publish_published_some (W H : ℕ) (s : CamState) (d : Detection) (m : List ℚ)
    (h : (publish_object_data W H s d).published = some m) :
    ∃ oid, assignObjectId d.label = some oid ∧ m.head? = some ((oid : ℕ) : ℚ) ∧
      oid ∉ s.published_objects ∧
      (publish_object_data W H s d).state.published_objects = oid :: s.published_objects := by
  by_cases h1 : d.label = "backpack"
  · have hp : publish_object_data W H s d = publishCore W H 101 s d := by
      unfold publish_object_data; rw [if_pos h1]
    rw [hp] at h ⊢
    obtain ⟨ha, hb, hc⟩ := publishCore_published_some W H 101 s d m h
    exact ⟨101, by simp [assignObjectId, h1], ha, hb, hc⟩
  · by_cases h2 : d.label = "person"
    · have hp : publish_object_data W H s d = publishCore W H 102 s d := by
        unfold publish_object_data; rw [if_neg h1, if_pos h2]
      rw [hp] at h ⊢
      obtain ⟨ha, hb, hc⟩ := publishCore_published_some W H 102 s d m h
      exact ⟨102, by simp [assignObjectId, h1, h2], ha, hb, hc⟩
    · have hp : publish_object_data W H s d =
          { state := s, published := none, warned := true, spoke := none } := by
        unfold publish_object_data; rw [if_neg h1, if_neg h2]
      rw [hp] at h
      exact Option.noConfusion h

/-- Splitting a detection sequence splits the run. -/
lemma runDetections_append (W H : ℕ) (l1 l2 : List Detection) : ∀ s : CamState,
    (runDetections W H s (l1 ++ l2)).2 =
      (runDetections W H s l1).2 ++ (runDetections W H (runDetections W H s l1).1 l2).2 ∧
    (runDetections W H s (l1 ++ l2)).1 = (runDetections W H (runDetections W H s l1).1 l2).1 := by
  induction l1 with
  | nil => intro s; simp [runDetections]
  | cons d rest ih => intro s; simp [runDetections, (ih _).1, (ih _).2]

/-- Membership in the published set survives any further run. -/
lemma run_mem_mono (W H k : ℕ) : ∀ (ds : List Detection) (s : CamState),
    k ∈ s.published_objects → k ∈ (runDetections W H s ds).1.published_objects := by
  intro ds
  induction ds with
  | nil => intro s h; simpa [runDetections] using h
  | cons d rest ih =>
    intro s h
    simp only [runDetections]
    exact ih _ (publish_mem_mono W H s d k h)

/-- After a run emits a payload headed by id k, k is in the published set. -/
lemma run_msg_published (W H k : ℕ) : ∀ (ds : List Detection) (s : CamState) (m : List ℚ),
    m ∈ (runDetections W H s ds).2 → m.head? = some ((k : ℕ) : ℚ) →
    k ∈ (runDetections W H s ds).1.published_objects := by
  intro ds
  induction ds with
  | nil => intro s m hm; simp [runDetections] at hm
  | cons d rest ih =>
    intro s m hm hh
    simp only [runDetections, List.mem_append] at hm
    simp only [runDetections]
    rcases hm with hm | hm
    · cases hp : (publish_object_data W H s d).published with
      | none => simp [stepMsgs, hp] at hm
      | some m0 =>
        simp only [stepMsgs, hp, List.mem_singleton] at hm
        subst hm
        obtain ⟨oid, _, hhead, _, hpubs⟩ := publish_published_some W H s d m hp
        have hk : k = oid := by
          rw [hh] at hhead
          exact_mod_cast Option.some.inj hhead
        subst hk
        exact run_mem_mono W H k rest _ (hpubs ▸ List.mem_cons_self _ _)
    · exact ih _ m hm hh

/-- Core counting bound: a run from state s emits no payload for an already
published id, and at most one for any id. -/
lemma run_count_bound (W H k : ℕ) : ∀ (ds : List Detection) (s : CamState),
    countMsgsFor k (runDetections W H s ds).2 ≤
      if k ∈ s.published_objects then 0 else 1 := by
  intro ds
  induction ds with
  | nil =>
    intro s
    simp [runDetections, countMsgsFor]
  | cons d rest ih =>
    intro s
    simp only [runDetections, countMsgsFor, List.countP_append]
    by_cases hmem : k ∈ s.published_objects
    · rw [if_pos hmem]
      have h2 : countMsgsFor k (runDetections W H (publish_object_data W H s d).state rest).2 ≤ 0 := by
        have h3 := ih (publish_object_data W H s d).state
        rwa [if_pos (publish_mem_mono W H s d k hmem)] at h3
      have h1 : (stepMsgs (publish_object_data W H s d)).countP
          (fun m => decide (m.head? = some ((k : ℕ) : ℚ))) = 0 := by
        cases hp : (publish_object_data W H s d).published with
        | none => simp [stepMsgs, hp]
        | some m0 =>
          obtain ⟨oid, _, hhead, hnot, _⟩ := publish_published_some W H s d m0 hp
          have hko : ¬ (m0.head? = some ((k : ℕ) : ℚ)) := by
            rw [hhead]
            intro hcontra
            have : oid = k := by exact_mod_cast Option.some.inj hcontra
            exact hnot (this ▸ hmem)
          simp [stepMsgs, hp, List.countP_cons, hko]
      rw [h1]
      unfold countMsgsFor at h2
      omega
    · rw [if_neg hmem]
      cases hp : (publish_object_data W H s d).published with
      | none =>
        have h2 := ih (publish_object_data W H s d).state
        have h2' : countMsgsFor k (runDetections W H (publish_object_data W H s d).state rest).2 ≤ 1 := by
          rcases le_or_lt (countMsgsFor k (runDetections W H (publish_object_data W H s d).state rest).2) 1 with h | h
          · exact h
          · exfalso
            rcases Decidable.em (k ∈ (publish_object_data W H s d).state.published_objects) with hin | hin
            · rw [if_pos hin] at h2; omega
            · rw [if_neg hin] at h2; omega
        simp only [stepMsgs, hp, List.countP_nil]
        unfold countMsgsFor at h2'
        omega
      | some m0 =>
        obtain ⟨oid, _, hhead, hnot, hpubs⟩ := publish_published_some W H s d m0 hp
        by_cases hk : oid = k
        · subst hk
          have hmem2 : oid ∈ (publish_object_data W H s d).state.published_objects := by
            rw [hpubs]; exact List.mem_cons_self _ _
          have h2 := ih (publish_object_data W H s d).state
          rw [if_pos hmem2] at h2
          have h1 : (stepMsgs (publish_object_data W H s d)).countP
              (fun m => decide (m.head? = some ((oid : ℕ) : ℚ))) ≤ 1 := by
            simp only [stepMsgs, hp, List.countP_cons, List.countP_nil]
            split <;> omega
          unfold countMsgsFor at h2
          omega
        · have hko : ¬ (m0.head? = some ((k : ℕ) : ℚ)) := by
            rw [hhead]
            intro hcontra
            exact hk (by exact_mod_cast Option.some.inj hcontra)
          have h1 : (stepMsgs (publish_object_data W H s d)).countP
              (fun m => decide (m.head? = some ((k : ℕ) : ℚ))) = 0 := by
            simp [stepMsgs, hp, List.countP_cons, hko]
          have h2 := ih (publish_object_data W H s d).state
          have h2' : countMsgsFor k (runDetections W H (publish_object_data W H s d).state rest).2 ≤ 1 := by
            rcases Decidable.em (k ∈ (publish_object_data W H s d).state.published_objects) with hin | hin
            · rw [if_pos hin] at h2; omega
            · rw [if_neg hin] at h2; omega
          rw [h1]
          unfold countMsgsFor at h2'
          omega

/-- Claim C1: over any sequence of observations processed from node start,
the stabilized-object-report channel emits at most one payload headed by a
given DomainObjectID, however many times its window fills; once the id is
in the published set every later publication attempt is a no-op. -/
theorem at_most_one_report_per_id (W H oid : ℕ) (ds : List Detection) :
    countMsgsFor oid (runDetections W H initState ds).2 ≤ 1 := by
  have h := run_count_bound W H oid ds initState
  simpa [initState] using h

set_option maxHeartbeats 2000000 in
/-- Claim C3: feeding 10 identical Detections labeled backpack with bbox
(0.4,0.4,0.6,0.6) on a 416x416 frame produces exactly one stabilized
report, for object-id 101, whose corners match the claimed values
(166,166),(250,166),(250,250),(166,250) to within one pixel (the int cast
truncates 249.6 to 249) and whose size ratios 83/416 are within 1/100 of
0.2; an 11th identical Detection produces no further report.  The theorem
states the published payloads exactly and the pixel and ratio tolerances
against the claimed values explicitly. -/
theorem backpack_scenario :
    (runDetections 416 416 initState (List.replicate 10 backpackDet)).2 = [c3Msg] ∧
    (runDetections 416 416 initState (List.replicate 11 backpackDet)).2 = [c3Msg] ∧
    c3Msg.getD 0 0 = 101 ∧
    ((c3Msg.drop 1).zip c3Claimed).all (fun p => decide (|p.1 - p.2| ≤ 1)) = true ∧
    |c3Msg.getD 9 0 - 1/5| ≤ 1/100 ∧ |c3Msg.getD 10 0 - 1/5| ≤ 1/100 := by
  have h10 : (runDetections 416 416 initState (List.replicate 10 backpackDet)).2 = [c3Msg] := by
    norm_num [runDetections, publish_object_data, publishCore, currentCorners, frameNorm,
      pushDeque10, meanCols, stepMsgs, clip01, scaleCoord, backpackDet, c3Msg, initState,
      List.enum, List.enumFrom, Function.update_apply, List.replicate, List.range,
      List.range.loop]
  have hmem : (101 : ℕ) ∈
      (runDetections 416 416 initState (List.replicate 10 backpackDet)).1.published_objects := by
    refine run_msg_published 416 416 101 (List.replicate 10 backpackDet) initState c3Msg ?_ ?_
    · rw [h10]; exact List.mem_singleton.mpr rfl
    · norm_num [c3Msg]
  have h11 : (runDetections 416 416 initState (List.replicate 11 backpackDet)).2 = [c3Msg] := by
    have hsplit : List.replicate 11 backpackDet =
        List.replicate 10 backpackDet ++ [backpackDet] := by
      rw [show (11 : ℕ) = 10 + 1 from rfl, List.replicate_add]
      rfl
    rw [hsplit, (runDetections_append 416 416 (List.replicate 10 backpackDet) [backpackDet] initState).1, h10]
    have hstep : ∀ st : CamState, (101 : ℕ) ∈ st.published_objects →
        (runDetections 416 416 st [backpackDet]).2 = [] := by
      intro st hst
      have hnone : (publish_object_data 416 416 st backpackDet).published = none := by
        unfold publish_object_data
        rw [if_pos (show backpackDet.label = "backpack" from rfl)]
        exact publishCore_no_pub_of_mem 416 416 101 st backpackDet hst
      simp only [runDetections, stepMsgs, hnone, List.append_nil]
    rw [hstep _ hmem, List.append_nil]
  refine ⟨h10, h11, by norm_num [c3Msg], ?_, ?_, ?_⟩
  · simp only [c3Msg, c3Claimed, List.drop, List.zip, List.zipWith, List.all,
      Bool.and_eq_true, decide_eq_true_eq]
    norm_num [abs_le]
  · norm_num [c3Msg, abs_le, List.getD_cons_zero, List.getD_cons_succ]
  · norm_num [c3Msg, abs_le, List.getD_cons_zero, List.getD_cons_succ]

/-- When the publication condition of line 131 holds, the exact payload of
line 137 is published: the id, the elementwise mean of the full buffer, and
the two size ratios computed from the current detection only. -/
lemma publishCore_publishes (W H oid : ℕ) (s : CamState) (d : Detection)
    (hfull : (pushDeque10 (s.coordinate_buffers oid) (currentCorners W H d)).length = 10)
    (hnew : oid ∉ s.published_objects) :
    (publishCore W H oid s d).published =
      some (((oid : ℕ) : ℚ) ::
        (meanCols (pushDeque10 (s.coordinate_buffers oid) (currentCorners W H d)) ++
          [(((frameNorm W H [d.xmin, d.ymin, d.xmax, d.ymax]).getD 2 0 -
             (frameNorm W H [d.xmin, d.ymin, d.xmax, d.ymax]).getD 0 0 : ℤ) : ℚ) / (W : ℚ),
           (((frameNorm W H [d.xmin, d.ymin, d.xmax, d.ymax]).getD 3 0 -
             (frameNorm W H [d.xmin, d.ymin, d.xmax, d.ymax]).getD 1 0 : ℤ) : ℚ) / (H : ℚ)])) := by
  simp only [publishCore]
  rw [if_pos ⟨hfull, hnew⟩]

/-- Claim C2: when the buffer for a DomainObjectID holds exactly ten
CornerSet observations at the moment of publication, every corner
coordinate of the published report equals the arithmetic mean (the sum
divided by 10) of the corresponding coordinates of those ten observations. -/
theorem published_corners_are_window_mean (W H : ℕ) (s : CamState) (d : Detection)
    (oid : ℕ) (buf : List (List ℤ))
    (hc : assignObjectId d.label = some oid)
    (hbuf : buf = pushDeque10 (s.coordinate_buffers oid) (currentCorners W H d))
    (hfull : buf.length = 10)
    (hnew : oid ∉ s.published_objects) :
    ∃ m, (publish_object_data W H s d).published = some m ∧
      ∀ j, j < 8 → m.getD (j + 1) 0 =
        (buf.map (fun c => ((c.getD j 0 : ℤ) : ℚ))).sum / 10 := by
  subst hbuf
  have hpub : publish_object_data W H s d = publishCore W H oid s d := by
    by_cases h1 : d.label = "backpack"
    · have : oid = 101 := by simp [assignObjectId, h1] at hc; omega
      subst this
      unfold publish_object_data; rw [if_pos h1]
    · by_cases h2 : d.label = "person"
      · have : oid = 102 := by simp [assignObjectId, h1, h2] at hc; omega
        subst this
        unfold publish_object_data; rw [if_neg h1, if_pos h2]
      · simp [assignObjectId, h1, h2] at hc
  rw [hpub, publishCore_publishes W H oid s d hfull hnew]
  refine ⟨_, rfl, ?_⟩
  intro j hj
  rw [List.getD_cons_succ]
  have hlen : (meanCols (pushDeque10 (s.coordinate_buffers oid) (currentCorners W H d))).length = 8 := by
    simp [meanCols]
  rw [List.getD_append _ _ _ _ (by rw [hlen]; exact hj)]
  have hj8 : j < (meanCols (pushDeque10 (s.coordinate_buffers oid) (currentCorners W H d))).length := by
    rw [hlen]; exact hj
  rw [List.getD_eq_getElem _ _ hj8]
  simp only [meanCols, List.getElem_map, List.getElem_range]
  rw [hfull]
  norm_num

/-- Witness for claim C2 at a concrete state whose buffer fills on this
detection. -/
theorem published_corners_are_window_mean_witness :
    ∃ m, (publish_object_data 10 10 wState wDet).published = some m ∧
      ∀ j, j < 8 → m.getD (j + 1) 0 =
        (wBuf.map (fun c => ((c.getD j 0 : ℤ) : ℚ))).sum / 10 :=
  published_corners_are_window_mean 10 10 wState wDet 101 wBuf
    (by norm_num [assignObjectId, wDet])
    (by norm_num [wBuf, wState, wDet, wCorners, pushDeque10, currentCorners, frameNorm,
      clip01, scaleCoord, List.enum, List.enumFrom, Function.update_apply, List.replicate])
    (by norm_num [wBuf])
    (by simp [wState])

/-- Claim C10: every published stabilized-object payload is exactly 11
floats: the object id, then the 8 coordinates of the four averaged
corners, then the two size ratios, which are computed from the single most
recent detection only (its frameNorm pixel bbox), not averaged over the
window. -/
theorem report_payload_layout (W H : ℕ) (s : CamState) (d : Detection) (m : List ℚ)
    (h : (publish_object_data W H s d).published = some m) :
    m.length = 11 ∧
    ∃ oid, assignObjectId d.label = some oid ∧
      m = ((oid : ℕ) : ℚ) ::
        (meanCols (pushDeque10 (s.coordinate_buffers oid) (currentCorners W H d)) ++
          [(((frameNorm W H [d.xmin, d.ymin, d.xmax, d.ymax]).getD 2 0 -
             (frameNorm W H [d.xmin, d.ymin, d.xmax, d.ymax]).getD 0 0 : ℤ) : ℚ) / (W : ℚ),
           (((frameNorm W H [d.xmin, d.ymin, d.xmax, d.ymax]).getD 3 0 -
             (frameNorm W H [d.xmin, d.ymin, d.xmax, d.ymax]).getD 1 0 : ℤ) : ℚ) / (H : ℚ)]) := by
  have key : ∀ k : ℕ, (publishCore W H k s d).published = some m →
      m.length = 11 ∧
      m = ((k : ℕ) : ℚ) ::
        (meanCols (pushDeque10 (s.coordinate_buffers k) (currentCorners W H d)) ++
          [(((frameNorm W H [d.xmin, d.ymin, d.xmax, d.ymax]).getD 2 0 -
             (frameNorm W H [d.xmin, d.ymin, d.xmax, d.ymax]).getD 0 0 : ℤ) : ℚ) / (W : ℚ),
           (((frameNorm W H [d.xmin, d.ymin, d.xmax, d.ymax]).getD 3 0 -
             (frameNorm W H [d.xmin, d.ymin, d.xmax, d.ymax]).getD 1 0 : ℤ) : ℚ) / (H : ℚ)]) := by
    intro k
    simp only [publishCore]
    split
    · intro hk
      injection hk with hk
      subst hk
      exact ⟨by simp [meanCols], rfl⟩
    · intro hk
      exact Option.noConfusion hk
  by_cases h1 : d.label = "backpack"
  · have hpub : publish_object_data W H s d = publishCore W H 101 s d := by
      unfold publish_object_data; rw [if_pos h1]
    rw [hpub] at h
    obtain ⟨hlen, hm⟩ := key 101 h
    exact ⟨hlen, 101, by simp [assignObjectId, h1], hm⟩
  · by_cases h2 : d.label = "person"
    · have hpub : publish_object_data W H s d = publishCore W H 102 s d := by
        unfold publish_object_data; rw [if_neg h1, if_pos h2]
      rw [hpub] at h
      obtain ⟨hlen, hm⟩ := key 102 h
      exact ⟨hlen, 102, by simp [assignObjectId, h1, h2], hm⟩
    · have hpub : publish_object_data W H s d =
          { state := s, published := none, warned := true, spoke := none } := by
        unfold publish_object_data; rw [if_neg h1, if_neg h2]
      rw [hpub] at h
      exact Option.noConfusion h

/-- Witness for claim C10 at a concrete published payload. -/
theorem report_payload_layout_witness :
    wMsg.length = 11 ∧
    ∃ oid, assignObjectId wDet.label = some oid ∧
      wMsg = ((oid : ℕ) : ℚ) ::
        (meanCols (pushDeque10 (wState.coordinate_buffers oid) (currentCorners 10 10 wDet)) ++
          [(((frameNorm 10 10 [wDet.xmin, wDet.ymin, wDet.xmax, wDet.ymax]).getD 2 0 -
             (frameNorm 10 10 [wDet.xmin, wDet.ymin, wDet.xmax, wDet.ymax]).getD 0 0 : ℤ) : ℚ) / ((10 : ℕ) : ℚ),
           (((frameNorm 10 10 [wDet.xmin, wDet.ymin, wDet.xmax, wDet.ymax]).getD 3 0 -
             (frameNorm 10 10 [wDet.xmin, wDet.ymin, wDet.xmax, wDet.ymax]).getD 1 0 : ℤ) : ℚ) / ((10 : ℕ) : ℚ)]) :=
  report_payload_layout 10 10 wState wDet wMsg
    (by norm_num [publish_object_data, publishCore, currentCorners, frameNorm, clip01,
      scaleCoord, pushDeque10, meanCols, wState, wDet, wMsg, wCorners, List.enum,
      List.enumFrom, Function.update_apply, List.replicate, List.range, List.range.loop])
